import Mathlib

/-!
Verification development for the sound-dose subsystem of frameworks/av
(services/audioflinger/sounddose/SoundDoseManager.h).

The repository ships only the class header; every method body lives in a
translation unit that is not among the sources.  Definitions below that embed
such a body carry a doc comment starting with Modelled from the spec and follow
the design document; definitions taken from the header itself (constants,
constructor member initialisation, field shapes) cite their header lines.

The C++ float values (dBA thresholds, MEL samples, dose percentages) are
embedded as exact rationals: every operation treated here only stores, compares
and returns these values and never rounds them, so the rationals model the
observable behaviour exactly.
-/

/-- Handle for an audio device port (audio_port_handle_t). -/
abbrev AudioPortHandle := Int

/-- Handle for an audio io stream (audio_io_handle_t). -/
abbrev AudioIoHandle := Int

/-- Sample format tag (audio_format_t), opaque to this subsystem. -/
abbrev AudioFormat := Nat

/-- CSD rolling window of 7 days in seconds (header line 33). -/
def kCsdWindowSeconds : Int := 604800

/-- Default RS2 momentary-exposure threshold in dBA (header line 35). -/
def kDefaultRs2Value : ℚ := 100

/-- Modelled from the spec: lower RS2 bound, 80 dBA (header lines 65 to 67 and
    spec section 7, hard bounds 80.0 to 100.0). -/
def rs2LowerBound : ℚ := 80

/-- Modelled from the spec: upper RS2 bound, 100 dBA (header lines 65 to 67 and
    spec section 7, hard bounds 80.0 to 100.0). -/
def rs2UpperBound : ℚ := 100

/-- Outcome of a binder RPC call (binder::Status): ok, or the invalid-argument
    rejection the spec error taxonomy names (section 7). -/
inductive BinderStatus
  | ok
  | badValue
  deriving DecidableEq

/-- Modelled from the spec: the internal ExposureRecord of the Dose Aggregator
    (audio_utils::CsdRecord is not among the sources): one timestamped loudness
    measurement in dBA, tagged with the device id it was measured on
    (spec section 3). -/
structure ExposureRecord where
  timestamp : Int
  value : ℚ
  averageMel : ℚ
  deviceId : AudioPortHandle
  deriving DecidableEq

/-- Client-facing record shape media::SoundDoseRecord, as the spec RPC table
    gives it: timestamp, value (dBA), averageMel, deviceId (section 6). -/
structure SoundDoseRecord where
  timestamp : Int
  value : ℚ
  averageMel : ℚ
  deviceId : AudioPortHandle
  deriving DecidableEq

/-- Modelled from the spec: the conversion used on the resetCsd path, from the
    client-facing record shape into the internal ExposureRecord shape
    (spec section 4.1, resetCsd); field for field, both shapes carry the same
    data.  The header declares only the reverse direction (line 90). -/
def soundDoseRecordToExposureRecord (r : SoundDoseRecord) : ExposureRecord :=
  { timestamp := r.timestamp, value := r.value, averageMel := r.averageMel,
    deviceId := r.deviceId }

/-- Modelled from the spec: SoundDoseManager::csdRecordToSoundDoseRecord
    (header line 90, body not among the sources); field for field. -/
def csdRecordToSoundDoseRecord (r : ExposureRecord) : SoundDoseRecord :=
  { timestamp := r.timestamp, value := r.value, averageMel := r.averageMel,
    deviceId := r.deviceId }

/-- Modelled from the spec: the external Dose Aggregator
    (audio_utils::MelAggregator, not among the sources) as its contract in spec
    section 4.2 describes it: a rolling window length, the stored timestamped
    records, and the incrementally maintained cumulative dose. -/
structure MelAggregator where
  csdWindowSeconds : Int
  records : List ExposureRecord
  csd : ℚ
  deriving DecidableEq

/-- Modelled from the spec: aggregator construction with a rolling window
    length, starting empty with zero dose. -/
def MelAggregator.make (windowSeconds : Int) : MelAggregator :=
  { csdWindowSeconds := windowSeconds, records := [], csd := 0 }

/-- Modelled from the spec: setRecordsWithDose (section 4.2) atomically replaces
    the internal state; currentDose returns exactly the supplied dose until new
    records are added or time advances past the window boundary. -/
def MelAggregator.reset (agg : MelAggregator) (dose : ℚ)
    (rs : List ExposureRecord) : MelAggregator :=
  { agg with records := rs, csd := dose }

/-- Modelled from the spec: currentDose (section 4.2), the maintained
    cumulative dose. -/
def MelAggregator.getCsd (agg : MelAggregator) : ℚ :=
  agg.csd

/-- Modelled from the spec: addRecord (section 4.2) for a batch of records; the
    numeric per-record dose contribution is left open by the spec (section 9,
    open question), so the model takes it as the argument contrib. -/
def MelAggregator.aggregateRecords (agg : MelAggregator)
    (contrib : ExposureRecord → ℚ) (rs : List ExposureRecord) : MelAggregator :=
  { agg with records := agg.records ++ rs,
             csd := agg.csd + (rs.map contrib).sum }

/-- Modelled from the spec: window eviction (sections 3 and 4.2): as time
    advances, records older than the trailing window are evicted and their
    contribution leaves the maintained dose. -/
def MelAggregator.evictOlderThan (agg : MelAggregator)
    (contrib : ExposureRecord → ℚ) (now : Int) : MelAggregator :=
  { agg with
    records := agg.records.filter
      (fun r => decide (now - agg.csdWindowSeconds ≤ r.timestamp)),
    csd := agg.csd -
      ((agg.records.filter
          (fun r => decide (r.timestamp < now - agg.csdWindowSeconds))).map
        contrib).sum }

/-- Modelled from the spec: the external per-stream Sample Processor
    (audio_utils::MelProcessor, not among the sources) with the attributes the
    spec data model lists (section 3); pid is the object identity of the arena
    model the spec design notes prescribe for weak references (section 9). -/
structure MelProcessor where
  pid : Nat
  deviceId : AudioPortHandle
  sampleRate : Nat
  channelCount : Nat
  format : AudioFormat
  rs2Value : ℚ
  deriving DecidableEq

/-- Client session (header lines 99 to 120): holds the one callback channel it
    was constructed with; header line 119 declares that member const.  The
    channel itself is opaque here and carried as an identity. -/
structure SoundDose where
  callback : Nat
  deriving DecidableEq

/-- Weak-reference registry shape (header lines 136 to 137): association list
    keyed by stream handle; a none value is an expired weak reference, the
    owning stream already went away. -/
abbrev ProcessorMap := List (AudioIoHandle × Option MelProcessor)

/-- Lookup of a registry key. -/
def lookupProc : ProcessorMap → AudioIoHandle → Option (Option MelProcessor)
  | [], _ => none
  | (k, v) :: rest, h => if k = h then some v else lookupProc rest h

/-- Store a value under a key, replacing an entry already present. -/
def setProc : ProcessorMap → AudioIoHandle → Option MelProcessor → ProcessorMap
  | [], h, v => [(h, v)]
  | (k, w) :: rest, h, v =>
      if k = h then (k, v) :: rest else (k, w) :: setProc rest h v

/-- Erase a key from the registry. -/
def eraseProc : ProcessorMap → AudioIoHandle → ProcessorMap
  | [], _ => []
  | (k, w) :: rest, h =>
      if k = h then eraseProc rest h else (k, w) :: eraseProc rest h

/-- State of a SoundDoseManager (header lines 131 to 144): the owned aggregator,
    the weak processor registry, the RS2 threshold, the at-most-one client
    session slot, and the two test-override flags.  nextProcessorId generates
    fresh processor identities for the arena model of weak references. -/
structure SoundDoseManager where
  melAggregator : MelAggregator
  activeProcessors : ProcessorMap
  rs2Value : ℚ
  soundDose : Option SoundDose
  useFrameworkMel : Bool
  computeCsdOnAllDevices : Bool
  nextProcessorId : Nat
  deriving DecidableEq

/-- Constructor (header lines 37 to 39): the aggregator is made with
    kCsdWindowSeconds and the RS2 threshold starts at kDefaultRs2Value.  The
    registry starts empty and no client session is active; the header gives the
    two override flags no explicit initial value, and nothing proved below
    depends on their start value, taken as false here. -/
def SoundDoseManager.init : SoundDoseManager :=
  { melAggregator := MelAggregator.make kCsdWindowSeconds,
    activeProcessors := [],
    rs2Value := kDefaultRs2Value,
    soundDose := none,
    useFrameworkMel := false,
    computeCsdOnAllDevices := false,
    nextProcessorId := 0 }

/-- Modelled from the spec: SoundDoseManager::getOrCreateProcessorForDevice
    (header lines 41 to 56, body not among the sources; spec section 4.1).  A
    live registry entry for the handle is reused with its device id updated; a
    missing or expired entry leads to a freshly constructed processor, wired
    with the current RS2 threshold and stored under the handle. -/
def SoundDoseManager.getOrCreateProcessorForDevice (m : SoundDoseManager)
    (deviceId : AudioPortHandle) (streamHandle : AudioIoHandle)
    (sampleRate : Nat) (channelCount : Nat) (format : AudioFormat) :
    MelProcessor × SoundDoseManager :=
  match lookupProc m.activeProcessors streamHandle with
  | some (some p) =>
      let q := { p with deviceId := deviceId }
      (q, { m with
              activeProcessors := setProc m.activeProcessors streamHandle (some q) })
  | _ =>
      let q : MelProcessor :=
        { pid := m.nextProcessorId, deviceId := deviceId,
          sampleRate := sampleRate, channelCount := channelCount,
          format := format, rs2Value := m.rs2Value }
      (q, { m with
              activeProcessors := setProc m.activeProcessors streamHandle (some q),
              nextProcessorId := m.nextProcessorId + 1 })

/-- Modelled from the spec: SoundDoseManager::removeStreamProcessor (header
    lines 58 to 63, body not among the sources; spec section 4.1): erase the
    registry entry for the handle if present, no-op if absent. -/
def SoundDoseManager.removeStreamProcessor (m : SoundDoseManager)
    (streamHandle : AudioIoHandle) : SoundDoseManager :=
  { m with activeProcessors := eraseProc m.activeProcessors streamHandle }

/-- Modelled from the spec: the external owner of a stream released its
    processor, so the weak registry entry expires (spec sections 3 and 9). -/
def SoundDoseManager.expireProcessor (m : SoundDoseManager)
    (streamHandle : AudioIoHandle) : SoundDoseManager :=
  { m with activeProcessors := setProc m.activeProcessors streamHandle none }

/-- Modelled from the spec: the setOutputRs2 RPC (header lines 65 to 71 and
    110, bodies not among the sources; spec sections 4.1 and 6).  A value
    outside the hard bounds is rejected with an invalid-argument status and no
    state change; a value in bounds is stored and propagated to every live
    processor in the registry, expired entries skipped. -/
def SoundDoseManager.setOutputRs2 (m : SoundDoseManager) (v : ℚ) :
    BinderStatus × SoundDoseManager :=
  if v < rs2LowerBound ∨ rs2UpperBound < v then
    (BinderStatus.badValue, m)
  else
    (BinderStatus.ok,
     { m with
         rs2Value := v,
         activeProcessors := m.activeProcessors.map
           (fun kv => (kv.1, kv.2.map (fun p => { p with rs2Value := v }))) })

/-- Modelled from the spec: the getOutputRs2 RPC (header line 113, body not
    among the sources; spec section 6): reads the stored RS2 threshold. -/
def SoundDoseManager.getOutputRs2 (m : SoundDoseManager) : ℚ :=
  m.rs2Value

/-- Modelled from the spec: SoundDoseManager::resetCsd (header lines 111, 112
    and 124, bodies not among the sources; spec section 4.1): every supplied
    client-facing record is converted into the internal ExposureRecord shape and
    the aggregator state is replaced with those records and the supplied dose. -/
def SoundDoseManager.resetCsd (m : SoundDoseManager) (currentCsd : ℚ)
    (records : List SoundDoseRecord) : SoundDoseManager :=
  { m with melAggregator :=
      (m.melAggregator.reset currentCsd
        (records.map soundDoseRecordToExposureRecord)) }

/-- Modelled from the spec: the getCsd RPC (header line 114, body not among the
    sources; spec section 6): reads the aggregator dose. -/
def SoundDoseManager.getCsd (m : SoundDoseManager) : ℚ :=
  m.melAggregator.getCsd

/-- Modelled from the spec: SoundDoseManager::getSoundDoseInterface (header
    line 79, body not among the sources; spec section 4.3 registerClient): any
    previously active session is torn down and replaced, a new session is
    constructed around the supplied callback channel, stored as the sole active
    session, and returned. -/
def SoundDoseManager.getSoundDoseInterface (m : SoundDoseManager)
    (callback : Nat) : SoundDose × SoundDoseManager :=
  let sd : SoundDose := { callback := callback }
  (sd, { m with soundDose := some sd })

/-- Modelled from the spec: SoundDoseManager::getSoundDoseCallback (header line
    126, body not among the sources): the callback channel of the active
    session, if any. -/
def SoundDoseManager.getSoundDoseCallback (m : SoundDoseManager) : Option Nat :=
  m.soundDose.map (fun sd => sd.callback)

/-- Modelled from the spec: SoundDose::binderDied (header line 107, body not
    among the sources; spec section 4.3): liveness loss synchronously clears
    the active-session slot, releasing the callback channel. -/
def SoundDoseManager.binderDied (m : SoundDoseManager) : SoundDoseManager :=
  { m with soundDose := none }

/-- Modelled from the spec: SoundDoseManager::onMomentaryExposure (header line
    96, body not among the sources; spec section 4.1): the event is forwarded
    to the active session callback channel when one is present, and dropped
    otherwise; the manager state is untouched either way, and the function is
    total, so no delivery outcome can surface as an error. -/
def SoundDoseManager.onMomentaryExposure (m : SoundDoseManager)
    (currentMel : ℚ) (deviceId : AudioPortHandle) :
    Option (Nat × ℚ × AudioPortHandle) × SoundDoseManager :=
  match m.soundDose with
  | some sd => (some (sd.callback, currentMel, deviceId), m)
  | none => (none, m)

/-- Modelled from the spec: SoundDoseManager::onNewMelValues (header lines 93
    to 94, body not among the sources; spec section 4.1): a no-op when local
    aggregation is disabled by the use-framework-mel test override; otherwise
    the sub-range of the values at indices offset up to offset plus length is
    forwarded into the Dose Aggregator as records tagged with the device id,
    each stamped with the current time now. -/
def SoundDoseManager.onNewMelValues (m : SoundDoseManager)
    (contrib : ExposureRecord → ℚ) (mels : List ℚ) (offset length : Nat)
    (deviceId : AudioPortHandle) (now : Int) : SoundDoseManager :=
  if m.useFrameworkMel then m
  else
    { m with melAggregator :=
        (m.melAggregator.aggregateRecords contrib
          (((mels.drop offset).take length).map
            (fun v => { timestamp := now, value := v, averageMel := v,
                        deviceId := deviceId }))) }

/-- Modelled from the spec: the forceUseFrameworkMel RPC (header lines 115 and
    128, bodies not among the sources; spec section 6). -/
def SoundDoseManager.setUseFrameworkMel (m : SoundDoseManager) (b : Bool) :
    SoundDoseManager :=
  { m with useFrameworkMel := b }

/-- Modelled from the spec: the forceComputeCsdOnAllDevices RPC (header lines
    116 and 129, bodies not among the sources; spec section 6). -/
def SoundDoseManager.setComputeCsdOnAllDevices (m : SoundDoseManager)
    (b : Bool) : SoundDoseManager :=
  { m with computeCsdOnAllDevices := b }

/-! ## Registry lemmas shared by the claims -/

theorem lookupProc_setProc_self (ps : ProcessorMap) (h : AudioIoHandle)
    (v : Option MelProcessor) : lookupProc (setProc ps h v) h = some v := by
  induction ps with
  | nil => simp [setProc, lookupProc]
  | cons kv rest ih =>
      obtain ⟨k, w⟩ := kv
      by_cases hk : k = h
      · simp [setProc, lookupProc, hk]
      · simp [setProc, lookupProc, hk, ih]

theorem lookupProc_setProc_ne (ps : ProcessorMap) (h k : AudioIoHandle)
    (v : Option MelProcessor) (hne : k ≠ h) :
    lookupProc (setProc ps h v) k = lookupProc ps k := by
  induction ps with
  | nil => simp [setProc, lookupProc, Ne.symm hne]
  | cons kv rest ih =>
      obtain ⟨a, w⟩ := kv
      by_cases hah : a = h
      · subst hah
        simp [setProc, lookupProc, Ne.symm hne]
      · simp [setProc, lookupProc, hah, ih]

theorem lookupProc_eraseProc_self (ps : ProcessorMap) (h : AudioIoHandle) :
    lookupProc (eraseProc ps h) h = none := by
  induction ps with
  | nil => simp [eraseProc, lookupProc]
  | cons kv rest ih =>
      obtain ⟨k, w⟩ := kv
      by_cases hk : k = h
      · simp [eraseProc, hk, ih]
      · simp [eraseProc, lookupProc, hk, ih]

theorem lookupProc_eraseProc_ne (ps : ProcessorMap) (h k : AudioIoHandle)
    (hne : k ≠ h) : lookupProc (eraseProc ps h) k = lookupProc ps k := by
  induction ps with
  | nil => simp [eraseProc]
  | cons kv rest ih =>
      obtain ⟨a, w⟩ := kv
      by_cases hah : a = h
      · subst hah
        simp [eraseProc, lookupProc, Ne.symm hne, ih]
      · simp [eraseProc, lookupProc, hah, ih]

theorem eraseProc_eraseProc (ps : ProcessorMap) (h : AudioIoHandle) :
    eraseProc (eraseProc ps h) h = eraseProc ps h := by
  induction ps with
  | nil => simp [eraseProc]
  | cons kv rest ih =>
      obtain ⟨k, w⟩ := kv
      by_cases hk : k = h
      · simp [eraseProc, hk, ih]
      · simp [eraseProc, hk, ih]

/-! ## Claim theorems -/

/-- C1: at most one client session is active.  Registering callback B while the
    session for callback A is active replaces the old session, so only B is
    left in the slot, only B receives subsequent momentary-exposure events, and
    on client death binderDied synchronously clears the active-session slot and
    releases the callback channel. -/
theorem soundDose_single_session (m : SoundDoseManager) (cbA cbB : Nat)
    (mel : ℚ) (dev : AudioPortHandle) :
    (((m.getSoundDoseInterface cbA).2.getSoundDoseInterface cbB).2).soundDose =
      some { callback := cbB } ∧
    (((m.getSoundDoseInterface cbA).2.getSoundDoseInterface
        cbB).2).getSoundDoseCallback = some cbB ∧
    ((((m.getSoundDoseInterface cbA).2.getSoundDoseInterface
        cbB).2).onMomentaryExposure mel dev).1 = some (cbB, mel, dev) ∧
    ((((m.getSoundDoseInterface cbA).2.getSoundDoseInterface
        cbB).2).binderDied).soundDose = none ∧
    ((((m.getSoundDoseInterface cbA).2.getSoundDoseInterface
        cbB).2).binderDied).getSoundDoseCallback = none :=
  ⟨rfl, rfl, rfl, rfl, rfl⟩

/-- C2: setOutputRs2 succeeds exactly when the value lies in the closed range
    80 to 100 dBA; on success getOutputRs2 reads back exactly that value, and
    an out-of-range value is rejected with the invalid-argument status leaving
    the whole manager state unchanged. -/
theorem setOutputRs2_range_spec (m : SoundDoseManager) (v : ℚ) :
    ((m.setOutputRs2 v).1 = BinderStatus.ok ↔ 80 ≤ v ∧ v ≤ 100) ∧
    (80 ≤ v → v ≤ 100 → ((m.setOutputRs2 v).2).getOutputRs2 = v) ∧
    ((m.setOutputRs2 v).1 = BinderStatus.badValue → (m.setOutputRs2 v).2 = m) ∧
    ((m.setOutputRs2 v).1 = BinderStatus.badValue ↔ (v < 80 ∨ 100 < v)) := by
  unfold SoundDoseManager.setOutputRs2 SoundDoseManager.getOutputRs2
    rs2LowerBound rs2UpperBound
  split_ifs with hv
  · refine ⟨?_, ?_, fun _ => rfl, ?_⟩
    · constructor
      · intro hbad
        exact absurd hbad (by simp)
      · intro hc
        rcases hv with hl | hl
        · exact absurd hc.1 (not_le.mpr hl)
        · exact absurd hc.2 (not_le.mpr hl)
    · intro h1 h2
      rcases hv with hl | hl
      · exact absurd h1 (not_le.mpr hl)
      · exact absurd h2 (not_le.mpr hl)
    · exact ⟨fun _ => hv, fun _ => rfl⟩
  · push_neg at hv
    refine ⟨⟨fun _ => hv, fun _ => rfl⟩, fun _ _ => rfl, ?_, ?_⟩
    · intro hbad
      exact absurd hbad (by simp)
    · constructor
      · intro hbad
        exact absurd hbad (by simp)
      · intro hl
        rcases hl with hl | hl
        · exact absurd hl (not_lt.mpr hv.1)
        · exact absurd hl (not_lt.mpr hv.2)

/-- C3: resetCsd with dose d and a record list, followed immediately by getCsd
    with no records appended and no time advance in between, returns exactly d;
    the supplied records, converted into the internal ExposureRecord shape,
    have replaced the aggregator record state, its window length untouched. -/
theorem resetCsd_getCsd_roundtrip (m : SoundDoseManager) (d : ℚ)
    (rs : List SoundDoseRecord) :
    (m.resetCsd d rs).getCsd = d ∧
    (m.resetCsd d rs).melAggregator.records =
      rs.map soundDoseRecordToExposureRecord ∧
    (m.resetCsd d rs).melAggregator.csdWindowSeconds =
      m.melAggregator.csdWindowSeconds :=
  ⟨rfl, rfl, rfl⟩

/-- C4: two successive getOrCreateProcessorForDevice calls with the same stream
    handle return the same underlying processor, regardless of the device id
    passed on each call; the second call only updates the associated device id:
    the returned processor is the first one with its device id replaced, no new
    identity is allocated, only the entry of that handle changes in the
    registry, and aggregator, threshold, session slot and flags are untouched. -/
theorem getOrCreateProcessorForDevice_same_handle (m : SoundDoseManager)
    (d1 d2 : AudioPortHandle) (h : AudioIoHandle)
    (sr1 cc1 sr2 cc2 : Nat) (f1 f2 : AudioFormat) :
    ((m.getOrCreateProcessorForDevice d1 h sr1 cc1 f1).2.getOrCreateProcessorForDevice
        d2 h sr2 cc2 f2).1 =
      { (m.getOrCreateProcessorForDevice d1 h sr1 cc1 f1).1 with deviceId := d2 } ∧
    ((m.getOrCreateProcessorForDevice d1 h sr1 cc1 f1).2.getOrCreateProcessorForDevice
        d2 h sr2 cc2 f2).1.pid =
      (m.getOrCreateProcessorForDevice d1 h sr1 cc1 f1).1.pid ∧
    ((m.getOrCreateProcessorForDevice d1 h sr1 cc1 f1).2.getOrCreateProcessorForDevice
        d2 h sr2 cc2 f2).2.nextProcessorId =
      (m.getOrCreateProcessorForDevice d1 h sr1 cc1 f1).2.nextProcessorId ∧
    ((m.getOrCreateProcessorForDevice d1 h sr1 cc1 f1).2.getOrCreateProcessorForDevice
        d2 h sr2 cc2 f2).2.activeProcessors =
      setProc (m.getOrCreateProcessorForDevice d1 h sr1 cc1 f1).2.activeProcessors h
        (some (((m.getOrCreateProcessorForDevice d1 h sr1 cc1
          f1).2.getOrCreateProcessorForDevice d2 h sr2 cc2 f2).1)) ∧
    (∀ k : AudioIoHandle, k ≠ h →
      lookupProc ((m.getOrCreateProcessorForDevice d1 h sr1 cc1
          f1).2.getOrCreateProcessorForDevice d2 h sr2 cc2 f2).2.activeProcessors k =
        lookupProc (m.getOrCreateProcessorForDevice d1 h sr1 cc1
          f1).2.activeProcessors k) ∧
    ((m.getOrCreateProcessorForDevice d1 h sr1 cc1 f1).2.getOrCreateProcessorForDevice
        d2 h sr2 cc2 f2).2.melAggregator =
      (m.getOrCreateProcessorForDevice d1 h sr1 cc1 f1).2.melAggregator ∧
    ((m.getOrCreateProcessorForDevice d1 h sr1 cc1 f1).2.getOrCreateProcessorForDevice
        d2 h sr2 cc2 f2).2.rs2Value =
      (m.getOrCreateProcessorForDevice d1 h sr1 cc1 f1).2.rs2Value ∧
    ((m.getOrCreateProcessorForDevice d1 h sr1 cc1 f1).2.getOrCreateProcessorForDevice
        d2 h sr2 cc2 f2).2.soundDose =
      (m.getOrCreateProcessorForDevice d1 h sr1 cc1 f1).2.soundDose := by
  rcases hl : lookupProc m.activeProcessors h with _ | op
  · simp [SoundDoseManager.getOrCreateProcessorForDevice, hl,
      lookupProc_setProc_self]
    intro k hk
    exact lookupProc_setProc_ne _ h k _ hk
  · rcases op with _ | p
    · simp [SoundDoseManager.getOrCreateProcessorForDevice, hl,
        lookupProc_setProc_self]
      intro k hk
      exact lookupProc_setProc_ne _ h k _ hk
    · simp [SoundDoseManager.getOrCreateProcessorForDevice, hl,
        lookupProc_setProc_self]
      intro k hk
      exact lookupProc_setProc_ne _ h k _ hk

/-- C5: removeStreamProcessor erases the entry of the handle if present and is
    idempotent, leaves every other entry and the rest of the state unchanged,
    and a subsequent getOrCreateProcessorForDevice with the same handle
    constructs a new processor (a fresh identity), not the removed one.  The
    freshness hypothesis, every registered identity below nextProcessorId, is
    the allocation invariant of the arena model. -/
theorem removeStreamProcessor_spec (m : SoundDoseManager) (h k : AudioIoHandle)
    (p : MelProcessor) (d : AudioPortHandle) (sr cc : Nat) (f : AudioFormat)
    (hk : k ≠ h) ( _hp : lookupProc m.activeProcessors h = some (some p))
    (hfresh : p.pid < m.nextProcessorId) :
    lookupProc (m.removeStreamProcessor h).activeProcessors h = none ∧
    (m.removeStreamProcessor h).removeStreamProcessor h =
      m.removeStreamProcessor h ∧
    lookupProc (m.removeStreamProcessor h).activeProcessors k =
      lookupProc m.activeProcessors k ∧
    ((m.removeStreamProcessor h).getOrCreateProcessorForDevice d h sr cc
      f).1.pid ≠ p.pid ∧
    (m.removeStreamProcessor h).melAggregator = m.melAggregator ∧
    (m.removeStreamProcessor h).rs2Value = m.rs2Value ∧
    (m.removeStreamProcessor h).soundDose = m.soundDose ∧
    (m.removeStreamProcessor h).nextProcessorId = m.nextProcessorId := by
  refine ⟨lookupProc_eraseProc_self _ _, ?_, lookupProc_eraseProc_ne _ _ _ hk,
    ?_, rfl, rfl, rfl, rfl⟩
  · simp [SoundDoseManager.removeStreamProcessor, eraseProc_eraseProc]
  · have hnone : lookupProc (eraseProc m.activeProcessors h) h = none :=
      lookupProc_eraseProc_self _ _
    simp [SoundDoseManager.getOrCreateProcessorForDevice,
      SoundDoseManager.removeStreamProcessor, hnone]
    omega

/-- Concrete processor for the removeStreamProcessor witness. -/
def procEx : MelProcessor :=
  { pid := 0, deviceId := 1, sampleRate := 48000, channelCount := 2,
    format := 1, rs2Value := 100 }

/-- Concrete manager state for the removeStreamProcessor witness: two live
    registry entries and a fresh-identity counter ahead of both. -/
def mgrEx : SoundDoseManager :=
  { melAggregator := MelAggregator.make kCsdWindowSeconds,
    activeProcessors := [(5, some procEx), (6, some { procEx with pid := 1 })],
    rs2Value := 100, soundDose := none, useFrameworkMel := false,
    computeCsdOnAllDevices := false, nextProcessorId := 2 }

/-- Witness for removeStreamProcessor_spec at the concrete state mgrEx. -/
theorem removeStreamProcessor_spec_witness :
    ((6 : AudioIoHandle) ≠ 5 ∧
     lookupProc mgrEx.activeProcessors 5 = some (some procEx) ∧
     procEx.pid < mgrEx.nextProcessorId) ∧
    (lookupProc (mgrEx.removeStreamProcessor 5).activeProcessors 5 = none ∧
     (mgrEx.removeStreamProcessor 5).removeStreamProcessor 5 =
       mgrEx.removeStreamProcessor 5 ∧
     lookupProc (mgrEx.removeStreamProcessor 5).activeProcessors 6 =
       lookupProc mgrEx.activeProcessors 6 ∧
     ((mgrEx.removeStreamProcessor 5).getOrCreateProcessorForDevice 1 5 48000 2
       1).1.pid ≠ procEx.pid ∧
     (mgrEx.removeStreamProcessor 5).melAggregator = mgrEx.melAggregator ∧
     (mgrEx.removeStreamProcessor 5).rs2Value = mgrEx.rs2Value ∧
     (mgrEx.removeStreamProcessor 5).soundDose = mgrEx.soundDose ∧
     (mgrEx.removeStreamProcessor 5).nextProcessorId = mgrEx.nextProcessorId) :=
  ⟨⟨by decide, by decide, by decide⟩,
   removeStreamProcessor_spec mgrEx 5 6 procEx 1 48000 2 1 (by decide)
     (by decide) (by decide)⟩

/-- C6: onMomentaryExposure forwards the event to the active client session
    callback channel when a session is active, drops it with no state change
    when none is, and is a total function returning no error, so a concurrent
    client death can never surface as a failure: after binderDied the event is
    silently absorbed. -/
theorem onMomentaryExposure_forwarding (m : SoundDoseManager) (mel : ℚ)
    (dev : AudioPortHandle) :
    (m.onMomentaryExposure mel dev).2 = m ∧
    (m.onMomentaryExposure mel dev).1 =
      Option.map (fun sd => (sd.callback, mel, dev)) m.soundDose ∧
    (m.soundDose = none → (m.onMomentaryExposure mel dev).1 = none) ∧
    ((m.binderDied).onMomentaryExposure mel dev).1 = none := by
  rcases hm : m.soundDose with _ | sd <;>
    simp [SoundDoseManager.onMomentaryExposure, SoundDoseManager.binderDied, hm]

/-- C7: onNewMelValues makes no change at all when local aggregation is
    disabled by the use-framework-mel test override; otherwise it forwards into
    the Dose Aggregator exactly the sub-range of the values at indices offset
    up to offset plus length, as records tagged with the given device id.  The
    last conjunct pins the sub-range down element by element. -/
theorem onNewMelValues_forwarding (m : SoundDoseManager)
    (contrib : ExposureRecord → ℚ) (mels : List ℚ) (offset length : Nat)
    (dev : AudioPortHandle) (now : Int) :
    (m.useFrameworkMel = true →
      m.onNewMelValues contrib mels offset length dev now = m) ∧
    (m.useFrameworkMel = false →
      (m.onNewMelValues contrib mels offset length dev now).melAggregator.records =
        m.melAggregator.records ++
          ((mels.drop offset).take length).map
            (fun v => { timestamp := now, value := v, averageMel := v,
                        deviceId := dev })) ∧
    (∀ i : Nat, i < length →
      ((mels.drop offset).take length)[i]? = mels[offset + i]?) := by
  refine ⟨?_, ?_, ?_⟩
  · intro hf
    simp [SoundDoseManager.onNewMelValues, hf]
  · intro hf
    simp [SoundDoseManager.onNewMelValues, hf, MelAggregator.aggregateRecords]
  · intro i hi
    rw [List.getElem?_take, if_pos hi, List.getElem?_drop]

/-- C8: a newly constructed SoundDoseManager has its RS2 momentary-exposure
    threshold at the default 100 dBA, and its aggregator is constructed with a
    rolling window of exactly 604800 seconds starting empty; whatever state the
    aggregator is later given, eviction at that window keeps exactly the
    records of the trailing 604800-second window, so the dose reflects no
    older record. -/
theorem soundDoseManager_construction_spec :
    SoundDoseManager.init.rs2Value = kDefaultRs2Value ∧
    SoundDoseManager.init.rs2Value = 100 ∧
    SoundDoseManager.init.melAggregator.csdWindowSeconds = 604800 ∧
    SoundDoseManager.init.melAggregator.records = [] ∧
    (∀ (rs : List ExposureRecord) (dose : ℚ) (contrib : ExposureRecord → ℚ)
       (now : Int) (r : ExposureRecord),
      r ∈ ((SoundDoseManager.init.melAggregator.reset dose rs).evictOlderThan
            contrib now).records →
        now - 604800 ≤ r.timestamp ∧ r ∈ rs) := by
  refine ⟨rfl, rfl, rfl, rfl, ?_⟩
  intro rs dose contrib now r hr
  simp [MelAggregator.evictOlderThan, MelAggregator.reset,
    SoundDoseManager.init, MelAggregator.make, kCsdWindowSeconds,
    List.mem_filter] at hr
  obtain ⟨hmem, hts⟩ := hr
  exact ⟨by omega, hmem⟩

/-- C9: the processor-callback entry points onNewMelValues and
    onMomentaryExposure leave the processor registry, the RS2 threshold, the
    active-session slot and both test-override flags unchanged: they only
    forward data into the aggregator or to the client callback channel. -/
theorem melCallback_frame (m : SoundDoseManager) (contrib : ExposureRecord → ℚ)
    (mels : List ℚ) (offset length : Nat) (dev dev2 : AudioPortHandle)
    (now : Int) (mel : ℚ) :
    (m.onNewMelValues contrib mels offset length dev now).activeProcessors =
      m.activeProcessors ∧
    (m.onNewMelValues contrib mels offset length dev now).rs2Value =
      m.rs2Value ∧
    (m.onNewMelValues contrib mels offset length dev now).soundDose =
      m.soundDose ∧
    (m.onNewMelValues contrib mels offset length dev now).useFrameworkMel =
      m.useFrameworkMel ∧
    (m.onNewMelValues contrib mels offset length dev
      now).computeCsdOnAllDevices = m.computeCsdOnAllDevices ∧
    (m.onMomentaryExposure mel dev2).2 = m := by
  rcases hm : m.soundDose with _ | sd <;>
    by_cases hf : m.useFrameworkMel <;>
      simp [SoundDoseManager.onNewMelValues,
        SoundDoseManager.onMomentaryExposure, hm, hf]

/-- C10: a client session callback channel is fixed at construction and never
    reassigned for the lifetime of the session object: getSoundDoseInterface
    returns a session carrying exactly the supplied callback and stores it
    whole; every delivered momentary-exposure notification goes to the callback
    the active session was constructed with; and every other operation either
    preserves the installed session untouched or (binderDied) clears the slot,
    so changing the subscriber always requires constructing a new session. -/
theorem soundDoseCallback_fixed (m : SoundDoseManager) (cb : Nat) (mel v d : ℚ)
    (dev : AudioPortHandle) (rs : List SoundDoseRecord) (h : AudioIoHandle)
    (contrib : ExposureRecord → ℚ) (mels : List ℚ) (offset length : Nat)
    (now : Int) (sr cc : Nat) (f : AudioFormat) (b : Bool) :
    ((m.getSoundDoseInterface cb).1).callback = cb ∧
    ((m.getSoundDoseInterface cb).2).soundDose =
      some ((m.getSoundDoseInterface cb).1) ∧
    (m.onMomentaryExposure mel dev).1 =
      Option.map (fun sd => (sd.callback, mel, dev)) m.soundDose ∧
    ((m.setOutputRs2 v).2).soundDose = m.soundDose ∧
    (m.resetCsd d rs).soundDose = m.soundDose ∧
    (m.removeStreamProcessor h).soundDose = m.soundDose ∧
    ((m.getOrCreateProcessorForDevice dev h sr cc f).2).soundDose =
      m.soundDose ∧
    (m.onNewMelValues contrib mels offset length dev now).soundDose =
      m.soundDose ∧
    (m.setUseFrameworkMel b).soundDose = m.soundDose ∧
    (m.setComputeCsdOnAllDevices b).soundDose = m.soundDose ∧
    (m.binderDied).soundDose = none := by
  refine ⟨rfl, rfl, ?_, ?_, rfl, rfl, ?_, ?_, rfl, rfl, rfl⟩
  · rcases hm : m.soundDose with _ | sd <;>
      simp [SoundDoseManager.onMomentaryExposure, hm]
  · unfold SoundDoseManager.setOutputRs2
    split_ifs <;> rfl
  · rcases hl : lookupProc m.activeProcessors h with _ | op
    · simp [SoundDoseManager.getOrCreateProcessorForDevice, hl]
    · rcases op with _ | p <;>
        simp [SoundDoseManager.getOrCreateProcessorForDevice, hl]
  · unfold SoundDoseManager.onNewMelValues
    split_ifs <;> rfl
